import Mathlib

/-!
Verification development for the Loki datasource module
(`LokiDatasource` in the repository's TypeScript source).

The definitions below are a shallow embedding of the class: numbers are
modelled as `Int`/`ℚ` (a moment's `valueOf()` is its millisecond epoch
value, kept as a rational so that `Math.ceil` is meaningful), JavaScript
`undefined`-able fields are `Option`s, and external collaborators
(`templateSrv.replace`, `parseQuery`, `dateMath.parse`, `moment()`,
`mergeStreamsToLogs`, `makeSeriesForLogs`, the HTTP transport) are
parameters of the model, since their implementations live outside this
module.
-/

namespace Loki

/-- A moment value: `valueOf()` is the millisecond epoch value. -/
structure Moment where
  millis : ℚ
deriving DecidableEq

/-- Argument of `getTime`: either an absolute timestamp (a moment) or a
relative date-math expression string (the `_.isString(date)` branch). -/
inductive DateValue
  | absolute (m : Moment)
  | relative (s : String)
deriving DecidableEq

/-- Result of the external `parseQuery` collaborator (fields `query` and
`regexp`, as used by `modifyQuery` and `getHighlighterExpression`). -/
structure ParsedQuery where
  query : String
  regexp : String
deriving DecidableEq

/-- One backend log entry. -/
structure LogEntry where
  ts : String
  line : String
deriving DecidableEq

/-- One backend log stream; `search` is the field the datasource
overwrites with the originating target's regexp (`stream.search = query.regexp`). -/
structure LogsStream where
  labels : String
  entries : List LogEntry
  search : String
deriving DecidableEq

/-- A row of the merged logs model (produced by the external
`mergeStreamsToLogs`; its internals are outside this module). -/
structure LogRow where
  timestampNs : Int
  line : String
deriving DecidableEq

/-- Result record of the external `mergeStreamsToLogs`: only its `rows`
field is read by this module (`logs.rows`). -/
structure LogsModelRec where
  rows : List LogRow
deriving DecidableEq

/-- One point of a derived series (produced by the external
`makeSeriesForLogs`; opaque to this module). -/
structure SeriesPoint where
  timestampMs : Int
  count : Int
deriving DecidableEq

/-- A raw user query (`LokiQuery`): expression, display format and the
hidden flag. An absent `expr` is modelled as the empty string (both are
JavaScript-falsy in the filters of `query`/`requestStream`). -/
structure LokiQuery where
  expr : String
  format : String
  hide : Bool
deriving DecidableEq

/-- The requested time range (`options.range`). -/
structure Range where
  «from» : DateValue
  «to» : DateValue
deriving DecidableEq

/-- The relevant part of `DataQueryOptions<LokiQuery>`. -/
structure QueryOptions where
  targets : List LokiQuery
  range : Range
  intervalMs : Int
deriving DecidableEq

/-- The record built by `prepareQueryTarget` (spread of
`DEFAULT_QUERY_PARAMS`, the parse result, `start`, `end` and `limit`). -/
structure QueryTarget where
  direction : String
  limit : Int
  regexp : String
  query : String
  start : Int
  «end» : Int
deriving DecidableEq

/-- `jsonData` of the instance settings: only `maxLines` is read. -/
structure JsonData where
  maxLines : Option String
deriving DecidableEq

/-- The instance settings as far as this module reads them. -/
structure InstanceSettings where
  jsonData : Option JsonData
deriving DecidableEq

/-- The datasource state established by the constructor. -/
structure Datasource where
  maxLines : Int
deriving DecidableEq

/-- The external collaborators of the module, passed as a record:
template interpolation, query parsing, date math, the current moment and
the two log-model helpers imported from other modules. -/
structure Ext where
  replace : String → String
  parseQuery : String → ParsedQuery
  dateMathParse : String → Bool → Moment
  now : Moment
  mergeStreamsToLogs : List LogsStream → Int → LogsModelRec
  makeSeriesForLogs : List LogRow → Int → List SeriesPoint

/-- `export const DEFAULT_MAX_LINES = 1000`. -/
def DEFAULT_MAX_LINES : Int := 1000

/-- The static part of `DEFAULT_QUERY_PARAMS` (its `start`/`end` are
added later by the spread in `prepareQueryTarget`). -/
structure DefaultQueryParams where
  direction : String
  limit : Int
  regexp : String
  query : String
deriving DecidableEq

/-- `DEFAULT_QUERY_PARAMS`. -/
def DEFAULT_QUERY_PARAMS : DefaultQueryParams :=
  { direction := "BACKWARD"
    limit := DEFAULT_MAX_LINES
    regexp := ""
    query := "" }

/-- JavaScript truthiness of a string: the empty string is falsy. -/
def jsTruthyStr (s : String) : Bool := !s.isEmpty

/-- `parseInt(s, 10)` over the string's characters: skip leading
whitespace, optional sign, longest digit prefix; `none` models `NaN`
(no digits at all). -/
def jsParseInt10 (s : String) : Option Int :=
  let cs := s.data.dropWhile (fun c => c.isWhitespace)
  let sign : Int := if cs.head? = some '-' then -1 else 1
  let rest := if cs.head? = some '-' || cs.head? = some '+' then cs.tail else cs
  let digits := rest.takeWhile (fun c => c.isDigit)
  if digits.isEmpty then none
  else some (sign * digits.foldl (fun n c => n * 10 + ((c.toNat : Int) - ('0'.toNat : Int))) 0)

/-- The constructor's `maxLines` computation:
`parseInt((instanceSettings.jsonData || {}).maxLines, 10) || DEFAULT_MAX_LINES`
(`NaN` and `0` are falsy, any other number is kept). -/
def computeMaxLines (jsonData : Option JsonData) : Int :=
  let settingsData := jsonData.getD { maxLines := none }
  match settingsData.maxLines.bind jsParseInt10 with
  | some n => if n = 0 then DEFAULT_MAX_LINES else n
  | none => DEFAULT_MAX_LINES

/-- The constructor: `this.maxLines = parseInt(settingsData.maxLines, 10) || DEFAULT_MAX_LINES`. -/
def datasourceOf (settings : InstanceSettings) : Datasource :=
  { maxLines := computeMaxLines settings.jsonData }

/-- `getTime(date, roundUp)`: strings go through `dateMath.parse(date, roundUp)`
first, then `Math.ceil(date.valueOf() * 1e6)`. (A date-math parse failure
throws in the source and is outside the embedded domain.) -/
def getTime (dm : String → Bool → Moment) (date : DateValue) (roundUp : Bool) : Int :=
  let m : Moment :=
    match date with
    | .relative s => dm s roundUp
    | .absolute m => m
  Int.ceil (m.millis * 1000000)

/-- The moment `getTime` converts: the absolute input itself, or the
result of the date-math collaborator on a relative expression. -/
def resolvedMoment (dm : String → Bool → Moment) (date : DateValue) (roundUp : Bool) : Moment :=
  match date with
  | .relative s => dm s roundUp
  | .absolute m => m

/-- Fallback for `options.targets[0]` (the source never evaluates it on
an empty list: `prepareQueryTarget` is reached only through a non-empty
filtered target list). -/
def defaultLokiQuery : LokiQuery := { expr := "", format := "", hide := false }

/-- `options.targets[0].format !== 'time_series'` — the live-stream flag
used by `prepareQueryTarget` and `stream`. -/
def isLiveStream (options : QueryOptions) : Bool :=
  (options.targets.headD defaultLokiQuery).format != "time_series"

/-- `prepareQueryTarget(target, options)`: interpolate, pick the live or
historical window, and assemble the target from `DEFAULT_QUERY_PARAMS`,
the parse result, `start`, `end` and the overriding `limit`. -/
def prepareQueryTarget (ds : Datasource) (ext : Ext) (target : LokiQuery)
    (options : QueryOptions) : QueryTarget :=
  let liveStream := isLiveStream options
  let interpolated := ext.replace target.expr
  let now := ext.now
  let liveStreamStart : Moment := { millis := now.millis - 1000 }
  let liveStreamEnd : Moment := now
  let start :=
    if liveStream then getTime ext.dateMathParse (.absolute liveStreamStart) false
    else getTime ext.dateMathParse options.range.«from» false
  let «end» :=
    if liveStream then getTime ext.dateMathParse (.absolute liveStreamEnd) true
    else getTime ext.dateMathParse options.range.«to» true
  let parsed := ext.parseQuery interpolated
  { direction := DEFAULT_QUERY_PARAMS.direction
    regexp := parsed.regexp
    query := parsed.query
    start := start
    «end» := «end»
    limit := ds.maxLines }

/-- The survivor filter of `query` and `requestStream`:
`target.expr && !target.hide`. -/
def surviveB (t : LokiQuery) : Bool := jsTruthyStr t.expr && !t.hide

/-- The prepared targets of one execution:
`options.targets.filter(t => t.expr && !t.hide).map(t => prepareQueryTarget(t, options))`. -/
def queryTargetsOf (ds : Datasource) (ext : Ext) (options : QueryOptions) : List QueryTarget :=
  (options.targets.filter surviveB).map (fun t => prepareQueryTarget ds ext t options)

/-- The `data` member of a backend response: `streams` may be absent. -/
structure RespData where
  streams : Option (List LogsStream)
deriving DecidableEq

/-- A backend response as read by `query`/`requestStream`: `data` may be
absent. -/
structure QueryResponse where
  data : Option RespData
deriving DecidableEq

/-- The `data` payload of a resolved `query` call: either the tagged
stream list (`{ data: allStreams }`) or the derived series
(`{ data: logs.series }`). The short-circuit value `{ data: [] }` is the
empty stream list. -/
inductive QueryResultData
  | streams (ss : List LogsStream)
  | series (ps : List SeriesPoint)
deriving DecidableEq

/-- Whether a query result is series-shaped. -/
def QueryResultData.isSeries : QueryResultData → Bool
  | .series _ => true
  | .streams _ => false

/-- The streams of one response in `query`'s collection loop:
`result.data` guard, then `result.data.streams || []`. -/
def respStreamsQ (r : QueryResponse) : List LogsStream :=
  match r.data with
  | some d => d.streams.getD []
  | none => []

/-- `query`'s `allStreams` accumulation: `Promise.all` preserves request
order, so `results[i]` pairs with `queryTargets[i]`; each stream gets
`stream.search = query.regexp` before being pushed. The backend is the
request function `target ↦ response`. -/
def allStreamsOf (qts : List QueryTarget) (backend : QueryTarget → QueryResponse) :
    List LogsStream :=
  ((qts.map backend).zip qts).flatMap
    (fun pr => (respStreamsQ pr.1).map (fun s => { s with search := pr.2.regexp }))

/-- `query(options)`: filter and prepare the targets, short-circuit to
`{ data: [] }` when none survive, else request all targets, tag and
collect the streams, and shape the result by
`options.targets[0].format === 'time_series'`. -/
def lokiQuery (ds : Datasource) (ext : Ext) (options : QueryOptions)
    (backend : QueryTarget → QueryResponse) : QueryResultData :=
  let queryTargets := queryTargetsOf ds ext options
  if queryTargets.isEmpty then .streams []
  else
    let allStreams := allStreamsOf queryTargets backend
    if (options.targets.headD defaultLokiQuery).format = "time_series" then
      let logs := ext.mergeStreamsToLogs allStreams ds.maxLines
      .series (ext.makeSeriesForLogs logs.rows options.intervalMs)
    else .streams allStreams

/-- The streams of one response in `requestStream`'s per-target map:
guard `result && result.data && result.data.streams`, else `[]`. -/
def respStreamsS (r : QueryResponse) : List LogsStream :=
  match r.data with
  | some d =>
    match d.streams with
    | some ss => ss
    | none => []
  | none => []

/-- One emitted value of the `requestStream` observable: a logs-shaped
result, a series-shaped result, or the raw `EMPTY` Observable object
itself delivered as a value (all `EMPTY` objects are the one RxJS
singleton, so the constructor needs no payload). -/
inductive StreamEmission
  | dataStreams (ss : List LogsStream)
  | dataSeries (ps : List SeriesPoint)
  | emptyObservableValue
deriving DecidableEq

/-- The emissions of one `requestStream` subscription, given the backend
as a function from request target to response.

Reading of the RxJS pipeline in the source: `emptyStream$` is an
**array** of `EMPTY` observables (one per suppressed target, built by
`filter(target => !target.expr || target.hide).map(() => EMPTY)`), and
`merge(emptyStream$, result)` receives it un-spread, so RxJS treats the
array as an `ObservableInput` and emits each of its elements — the
`EMPTY` Observable objects themselves — as plain values, synchronously
at subscribe time, before any of the asynchronous backend results; on
the result side `forkJoin(streams$)` emits the array of
per-surviving-target tagged stream lists once (in target order),
`combineLatest(streams => streams)` projects it unchanged,
`mergeMap(value => value)` flattens that array into one emission per
surviving target, and the final `map` shapes each one by
`options.targets[0].format`. With no surviving target, `forkJoin([])`
completes without emitting. -/
def requestStreamEmissions (ds : Datasource) (ext : Ext) (options : QueryOptions)
    (backend : QueryTarget → QueryResponse) : List StreamEmission :=
  let emptyStreamValues :=
    (options.targets.filter (fun t => !jsTruthyStr t.expr || t.hide)).map
      (fun _ => StreamEmission.emptyObservableValue)
  let survivorResults :=
    (queryTargetsOf ds ext options).map
      (fun q =>
        let tagged := (respStreamsS (backend q)).map (fun s => { s with search := q.regexp })
        if (options.targets.headD defaultLokiQuery).format = "time_series" then
          let logs := ext.mergeStreamsToLogs tagged ds.maxLines
          StreamEmission.dataSeries (ext.makeSeriesForLogs logs.rows options.intervalMs)
        else StreamEmission.dataStreams tagged)
  emptyStreamValues ++ survivorResults

/-- `res.data` of the label endpoint in `testDatasource`. -/
structure LabelData where
  values : Option (List String)
deriving DecidableEq

/-- The resolved response of `_request('/api/prom/label')`. -/
structure LabelResponse where
  data : Option LabelData
deriving DecidableEq

/-- `err.data` in `testDatasource`'s catch handler: a string or an
object with an optional `message`. -/
inductive JsErrData
  | strVal (s : String)
  | objVal (message : Option String)
deriving DecidableEq

/-- The rejection value of the label request. -/
structure JsError where
  statusText : Option String
  status : Option Nat
  data : Option JsErrData
deriving DecidableEq

/-- The structured result of `testDatasource`. -/
structure TestResult where
  status : String
  message : String
deriving DecidableEq

/-- JavaScript truthiness of an optional string field. -/
def optStrTruthy : Option String → Bool
  | some s => !s.isEmpty
  | none => false

/-- Truthiness of `err.data` (an object is truthy, a string iff non-empty). -/
def jsErrDataTruthy : Option JsErrData → Bool
  | some (.strVal s) => !s.isEmpty
  | some (.objVal _) => true
  | none => false

/-- `err.data.message` (undefined unless `err.data` is an object with
that property). -/
def jsErrDataMessage : Option JsErrData → Option String
  | some (.objVal m) => m
  | _ => none

/-- String conversion of `err.data` in `message += '. ' + err.data`. -/
def jsErrDataToString : JsErrData → String
  | .strVal s => s
  | .objVal _ => "[object Object]"

/-- The message suffix that `testDatasource`'s catch handler appends
after `'Loki: '`. -/
def testDatasourceCatchDetail (err : JsError) : String :=
  let message := if optStrTruthy err.statusText then err.statusText.getD ""
    else "Cannot connect to Loki"
  let message := match err.status with
    | some n => if n ≠ 0 then message ++ ". " ++ toString n else message
    | none => message
  if optStrTruthy (jsErrDataMessage err.data) then
    message ++ ". " ++ (jsErrDataMessage err.data).getD ""
  else if jsErrDataTruthy err.data then
    message ++ ". " ++ jsErrDataToString (err.data.getD (.strVal ""))
  else message

/-- The catch handler of `testDatasource`: builds `'Loki: ' + …` and
returns `{ status: 'error', message }`. -/
def testDatasourceCatch (err : JsError) : TestResult :=
  { status := "error", message := "Loki: " ++ testDatasourceCatchDetail err }

/-- The message of the zero-labels branch of `testDatasource`. -/
def noLabelsMessage : String :=
  "Data source connected, but no labels received. Verify that Loki and Promtail is configured properly."

/-- The then-handler of `testDatasource`:
`res && res.data && res.data.values && res.data.values.length > 0`. -/
def testDatasourceThen (res : LabelResponse) : TestResult :=
  match res.data with
  | some d =>
    match d.values with
    | some vs =>
      if vs.length > 0 then
        { status := "success", message := "Data source connected and labels found." }
      else { status := "error", message := noLabelsMessage }
    | none => { status := "error", message := noLabelsMessage }
  | none => { status := "error", message := noLabelsMessage }

/-- `testDatasource()`, as a function of how the label request settles:
both the then-branch and the catch-branch resolve with a structured
result (neither rethrows). -/
def testDatasource (settled : Except JsError LabelResponse) : TestResult :=
  match settled with
  | .ok res => testDatasourceThen res
  | .error err => testDatasourceCatch err

/-- State of one `webSocketStream` subscription: whether
`subscription.unsubscribe()` has run, the `interval(1000)` counter, the
tick ids whose `requestStream` call is still in flight, and the tick ids
whose results were delivered through `observer.next`. -/
structure PollerState where
  cancelled : Bool
  nextTick : Nat
  inFlight : List Nat
  emitted : List Nat
deriving DecidableEq

/-- Events of one `webSocketStream` subscription: a timer tick, the
resolution of tick `i`'s in-flight call, and the unsubscribe. -/
inductive PollerEvent
  | tick
  | resolve (i : Nat)
  | cancel
deriving DecidableEq

/-- One step of the `webSocketStream` subscription. After
`subscription.unsubscribe()` the `interval` timer no longer fires the
handler (so no new call starts) and the chain's subscriber is closed, so
a later resolution of an in-flight call is dropped instead of reaching
`observer.next` — the RxJS closed-subscriber semantics the source relies
on for cancellation. -/
def pollerStep (s : PollerState) : PollerEvent → PollerState
  | .tick =>
    if s.cancelled then s
    else { s with nextTick := s.nextTick + 1, inFlight := s.inFlight ++ [s.nextTick] }
  | .resolve i =>
    if s.cancelled then { s with inFlight := s.inFlight.erase i }
    else if i ∈ s.inFlight then
      { s with inFlight := s.inFlight.erase i, emitted := s.emitted ++ [i] }
    else s
  | .cancel => { s with cancelled := true }

/-- Run a sequence of subscription events from a state. -/
def pollerRun (s : PollerState) : List PollerEvent → PollerState
  | [] => s
  | e :: es => pollerRun (pollerStep s e) es

/-! ## Concrete instances used by witnesses and counterexamples -/

/-- A concrete collaborator record: identity interpolation, a parser
that puts a recognizable regexp on each expression, a fixed clock and
trivial log-model helpers. -/
def extEx : Ext :=
  { replace := fun s => s
    parseQuery := fun s => { query := s, regexp := "rx-" ++ s }
    dateMathParse := fun _ _ => { millis := 0 }
    now := { millis := 0 }
    mergeStreamsToLogs := fun _ _ => { rows := [] }
    makeSeriesForLogs := fun _ _ => [] }

/-- A concrete datasource state. -/
def dsEx : Datasource := { maxLines := 1000 }

/-! ## Helper lemmas -/

theorem getTime_eq_ceil_resolved (dm : String → Bool → Moment) (d : DateValue) (r : Bool) :
    getTime dm d r = Int.ceil ((resolvedMoment dm d r).millis * 1000000) := by
  cases d <;> rfl

theorem ceil_shift_one_second (q : ℚ) :
    Int.ceil ((q - 1000) * 1000000) = Int.ceil (q * 1000000) - 1000000000 := by
  have h : (q - 1000) * 1000000 = q * 1000000 - ((1000000000 : ℤ) : ℚ) := by
    push_cast
    ring
  rw [h, Int.ceil_sub_int]

/-! ## Claims -/

/-- C1: for every raw query and requested range, `prepareQueryTarget`
determines the effective window as follows: in live mode the window is
`[now − 1s, now]` in nanoseconds (end is the resolved `now`, start is
exactly one second, i.e. 10^9 ns, earlier) and the requested range is
ignored entirely (the built target is unchanged under any replacement of
the range); otherwise the start is `getTime(range.from, roundUp=false)`
and the end is `getTime(range.to, roundUp=true)`. -/
theorem c1_effective_time_window (ds : Datasource) (ext : Ext) (target : LokiQuery)
    (options : QueryOptions) :
    (isLiveStream options = true →
      (prepareQueryTarget ds ext target options).«end»
        = Int.ceil (ext.now.millis * 1000000) ∧
      (prepareQueryTarget ds ext target options).start
        = Int.ceil (ext.now.millis * 1000000) - 1000000000 ∧
      ∀ r : Range,
        prepareQueryTarget ds ext target { options with range := r }
          = prepareQueryTarget ds ext target options) ∧
    (isLiveStream options = false →
      (prepareQueryTarget ds ext target options).start
        = getTime ext.dateMathParse options.range.«from» false ∧
      (prepareQueryTarget ds ext target options).«end»
        = getTime ext.dateMathParse options.range.«to» true) := by
  constructor
  · intro h
    refine ⟨?_, ?_, ?_⟩
    · simp [prepareQueryTarget, h, getTime]
    · simp only [prepareQueryTarget, h, if_true, getTime]
      exact ceil_shift_one_second ext.now.millis
    · intro r
      have h' : isLiveStream { options with range := r } = true := h
      simp [prepareQueryTarget, h, h']
  · intro h
    constructor
    · simp [prepareQueryTarget, h]
    · simp [prepareQueryTarget, h]

/-- A live-mode option set (first target's format is not `time_series`). -/
def c1OptLive : QueryOptions :=
  { targets := [{ expr := "e", format := "logs", hide := false }]
    range := { «from» := .relative "now-6h", «to» := .relative "now" }
    intervalMs := 1000 }

/-- A historical-mode option set (first target's format is `time_series`). -/
def c1OptHist : QueryOptions :=
  { targets := [{ expr := "e", format := "time_series", hide := false }]
    range := { «from» := .relative "now-6h", «to» := .relative "now" }
    intervalMs := 1000 }

/-- The raw query used by the C1 witness. -/
def c1Target : LokiQuery := { expr := "e", format := "logs", hide := false }

/-- Witness for C1: both branch hypotheses hold and yield their windows
at concrete inputs. -/
theorem c1_effective_time_window_witness :
    (isLiveStream c1OptLive = true ∧
      (prepareQueryTarget dsEx extEx c1Target c1OptLive).«end»
        = Int.ceil (extEx.now.millis * 1000000) ∧
      (prepareQueryTarget dsEx extEx c1Target c1OptLive).start
        = Int.ceil (extEx.now.millis * 1000000) - 1000000000) ∧
    (isLiveStream c1OptHist = false ∧
      (prepareQueryTarget dsEx extEx c1Target c1OptHist).start
        = getTime extEx.dateMathParse c1OptHist.range.«from» false) := by
  have h := c1_effective_time_window dsEx extEx c1Target c1OptLive
  have h' := c1_effective_time_window dsEx extEx c1Target c1OptHist
  exact ⟨⟨rfl, (h.1 rfl).1, (h.1 rfl).2.1⟩, ⟨rfl, (h'.2 rfl).1⟩⟩

/-- C3: every target built by `prepareQueryTarget` has
`direction = 'BACKWARD'` and `limit` equal to the datasource's
configured `maxLines`, the explicit `limit` assignment coming after the
spreads of `DEFAULT_QUERY_PARAMS` and of the parse result, so it
overrides any prior value. -/
theorem c3_direction_and_limit (ds : Datasource) (ext : Ext) (target : LokiQuery)
    (options : QueryOptions) :
    (prepareQueryTarget ds ext target options).direction = "BACKWARD" ∧
    (prepareQueryTarget ds ext target options).limit = ds.maxLines := by
  exact ⟨rfl, rfl⟩

/-- C6: `getTime` always returns the ceiling of the resolved moment's
millisecond value times 1,000,000 — the least integer not below it,
never the floor of a fractional value; on an absolute moment the result
is independent of the rounding flag, and a relative expression is first
resolved by the external date-math collaborator with the same flag. -/
theorem c6_getTime_ceiling (dm : String → Bool → Moment) :
    (∀ (d : DateValue) (r : Bool),
      (resolvedMoment dm d r).millis * 1000000 ≤ (getTime dm d r : ℚ) ∧
      ((getTime dm d r : ℚ) - 1 < (resolvedMoment dm d r).millis * 1000000)) ∧
    (∀ (m : Moment) (r r' : Bool),
      getTime dm (.absolute m) r = getTime dm (.absolute m) r') ∧
    (∀ (s : String) (r : Bool),
      getTime dm (.relative s) r = getTime dm (.absolute (dm s r)) r) := by
  refine ⟨?_, ?_, ?_⟩
  · intro d r
    rw [getTime_eq_ceil_resolved]
    constructor
    · exact Int.le_ceil _
    · have h := Int.ceil_lt_add_one ((resolvedMoment dm d r).millis * 1000000)
      linarith
  · intro m r r'
    rfl
  · intro s r
    rfl

theorem allStreamsOf_flatMap (qts : List QueryTarget) (backend : QueryTarget → QueryResponse) :
    allStreamsOf qts backend
      = qts.flatMap
          (fun q => (respStreamsQ (backend q)).map (fun s => { s with search := q.regexp })) := by
  induction qts with
  | nil => rfl
  | cons q rest ih =>
    have h : allStreamsOf (q :: rest) backend
        = (respStreamsQ (backend q)).map (fun s => { s with search := q.regexp })
          ++ allStreamsOf rest backend := by
      simp [allStreamsOf]
    rw [h, ih, List.flatMap_cons]

/-- C4: `query` pairs the awaited responses with the surviving targets
positionally (`results[i]` with `queryTargets[i]`), so the collected
stream list is the concatenation, in target order, of each target's
response streams tagged with that target's regexp — and in particular
every stream of the merged output carries the regexp of the target whose
request produced it. -/
theorem c4_source_filter_tag (qts : List QueryTarget) (backend : QueryTarget → QueryResponse) :
    allStreamsOf qts backend
      = qts.flatMap
          (fun q => (respStreamsQ (backend q)).map (fun s => { s with search := q.regexp })) ∧
    ∀ s ∈ allStreamsOf qts backend,
      ∃ q ∈ qts, s.search = q.regexp ∧
        ∃ s₀ ∈ respStreamsQ (backend q), s = { s₀ with search := q.regexp } := by
  refine ⟨allStreamsOf_flatMap qts backend, ?_⟩
  intro s hs
  rw [allStreamsOf_flatMap] at hs
  simp only [List.mem_flatMap, List.mem_map] at hs
  obtain ⟨q, hq, s₀, hs₀, rfl⟩ := hs
  exact ⟨q, hq, rfl, s₀, hs₀, rfl⟩

/-- The query target of the C4 witness. -/
def c4Qt : QueryTarget :=
  { direction := "BACKWARD", limit := 1000, regexp := "foo", query := "q", start := 0, «end» := 1 }

/-- The backend stream of the C4 witness (its `search` starts out stale). -/
def c4Stream : LogsStream := { labels := "l", entries := [], search := "old" }

/-- A backend that returns exactly one stream. -/
def c4Backend : QueryTarget → QueryResponse :=
  fun _ => { data := some { streams := some [c4Stream] } }

/-- Witness for C4: a concrete stream of the output is tagged with its
originating target's regexp. -/
theorem c4_source_filter_tag_witness :
    ({ c4Stream with search := c4Qt.regexp } : LogsStream) ∈ allStreamsOf [c4Qt] c4Backend ∧
    ∃ q ∈ [c4Qt], ({ c4Stream with search := c4Qt.regexp } : LogsStream).search = q.regexp ∧
      ∃ s₀ ∈ respStreamsQ (c4Backend q),
        ({ c4Stream with search := c4Qt.regexp } : LogsStream) = { s₀ with search := q.regexp } := by
  have hmem : ({ c4Stream with search := c4Qt.regexp } : LogsStream)
      ∈ allStreamsOf [c4Qt] c4Backend := by decide
  exact ⟨hmem, (c4_source_filter_tag [c4Qt] c4Backend).2 _ hmem⟩

/-- C5: when every supplied target is suppressed (empty expression or
hidden), the survivor list is empty, `query` resolves with `{ data: [] }`
whatever the backend would answer, and no request target is ever built —
no backend call is issued. -/
theorem c5_all_suppressed_short_circuit (ds : Datasource) (ext : Ext) (options : QueryOptions)
    (h : ∀ t ∈ options.targets, t.expr = "" ∨ t.hide = true) :
    queryTargetsOf ds ext options = [] ∧
    ∀ backend, lokiQuery ds ext options backend = .streams [] := by
  have hfilter : options.targets.filter surviveB = [] := by
    rw [List.filter_eq_nil_iff]
    intro t ht hs
    unfold surviveB jsTruthyStr at hs
    rcases h t ht with h1 | h1
    · rw [h1] at hs
      exact Bool.noConfusion hs
    · rw [h1] at hs
      simp at hs
  have hq : queryTargetsOf ds ext options = [] := by
    simp [queryTargetsOf, hfilter]
  refine ⟨hq, ?_⟩
  intro backend
  simp [lokiQuery, hq]

/-- The all-suppressed option set of the C5 witness: one empty
expression, one hidden target. -/
def c5Opt : QueryOptions :=
  { targets :=
      [{ expr := "", format := "logs", hide := false },
       { expr := "x", format := "logs", hide := true }]
    range := { «from» := .absolute { millis := 0 }, «to» := .absolute { millis := 1 } }
    intervalMs := 1000 }

/-- Witness for C5 at a concrete all-suppressed batch. -/
theorem c5_all_suppressed_short_circuit_witness :
    (∀ t ∈ c5Opt.targets, t.expr = "" ∨ t.hide = true) ∧
    queryTargetsOf dsEx extEx c5Opt = [] ∧
    lokiQuery dsEx extEx c5Opt (fun _ => { data := none }) = .streams [] := by
  have h := c5_all_suppressed_short_circuit dsEx extEx c5Opt (by decide)
  exact ⟨by decide, h.1, h.2 _⟩

/-- Spec-side notion used to state C2 exactly as claimed: the batch's
display mode is read off the first non-suppressed target. -/
def firstNonSuppressed (targets : List LokiQuery) : Option LokiQuery :=
  targets.find? surviveB

/-- Spec-side statement of C2: the shape of the result matches the
display mode of the first non-suppressed target of the batch. -/
def specC2ShapeOk (options : QueryOptions) (r : QueryResultData) : Prop :=
  ∀ t, firstNonSuppressed options.targets = some t →
    (if t.format = "time_series" then ∃ ps, r = QueryResultData.series ps
     else ∃ ss, r = QueryResultData.streams ss)

/-- The batch refuting C2: the first target is suppressed (hidden) with
`time_series` format, the surviving one has `logs` format. -/
def c2Opt : QueryOptions :=
  { targets :=
      [{ expr := "a", format := "time_series", hide := true },
       { expr := "b", format := "logs", hide := false }]
    range := { «from» := .absolute { millis := 0 }, «to» := .absolute { millis := 1 } }
    intervalMs := 1000 }

/-- A backend whose responses carry no data. -/
def bNone : QueryTarget → QueryResponse := fun _ => { data := none }

/-- Counterexample to C2: on a batch whose first target is suppressed
`time_series` and whose only surviving target is `logs`-mode, `query`
returns a series-shaped result (it reads `options.targets[0].format`),
while the claim demands the shape of the first non-suppressed target. -/
theorem c2_counterexample : ¬ specC2ShapeOk c2Opt (lokiQuery dsEx extEx c2Opt bNone) := by
  intro h
  have h2 := h { expr := "b", format := "logs", hide := false } (by decide)
  rw [if_neg (by decide)] at h2
  obtain ⟨ss, hss⟩ := h2
  have hval : lokiQuery dsEx extEx c2Opt bNone = .series [] := by decide
  rw [hval] at hss
  exact QueryResultData.noConfusion hss

/-- C2 (amended): whenever at least one target of the batch survives
suppression, the shape of `query`'s result (series vs. raw tagged
streams) is chosen by the display mode of the batch's first target —
position 0 of the supplied list, whether or not that target is itself
suppressed. -/
theorem c2_amended_first_target_shape (ds : Datasource) (ext : Ext) (options : QueryOptions)
    (backend : QueryTarget → QueryResponse)
    (h : queryTargetsOf ds ext options ≠ []) :
    ((lokiQuery ds ext options backend).isSeries = true
      ↔ (options.targets.headD defaultLokiQuery).format = "time_series") := by
  have hne : (queryTargetsOf ds ext options).isEmpty = false := by
    cases hq : queryTargetsOf ds ext options with
    | nil => exact absurd hq h
    | cons a l => rfl
  have hval : lokiQuery ds ext options backend =
      if (options.targets.headD defaultLokiQuery).format = "time_series" then
        QueryResultData.series
          (ext.makeSeriesForLogs
            (ext.mergeStreamsToLogs (allStreamsOf (queryTargetsOf ds ext options) backend)
              ds.maxLines).rows
            options.intervalMs)
      else QueryResultData.streams (allStreamsOf (queryTargetsOf ds ext options) backend) := by
    simp [lokiQuery, hne]
  rw [hval]
  by_cases hf : (options.targets.headD defaultLokiQuery).format = "time_series"
  · rw [if_pos hf]
    simp only [QueryResultData.isSeries, true_iff]
    exact hf
  · rw [if_neg hf]
    exact iff_of_false (by simp [QueryResultData.isSeries]) hf

/-- The batch of the C2 amended witness: a surviving `time_series`
target. -/
def c2AmOpt : QueryOptions :=
  { targets := [{ expr := "a", format := "time_series", hide := false }]
    range := { «from» := .absolute { millis := 0 }, «to» := .absolute { millis := 0 } }
    intervalMs := 1000 }

/-- Witness for the amended C2 at a concrete surviving batch. -/
theorem c2_amended_first_target_shape_witness :
    queryTargetsOf dsEx extEx c2AmOpt ≠ [] ∧
    ((lokiQuery dsEx extEx c2AmOpt bNone).isSeries = true
      ↔ (c2AmOpt.targets.headD defaultLokiQuery).format = "time_series") := by
  have hne : queryTargetsOf dsEx extEx c2AmOpt ≠ [] := by decide
  exact ⟨hne, c2_amended_first_target_shape dsEx extEx c2AmOpt bNone hne⟩

theorem pollerRun_append (s : PollerState) (evs1 evs2 : List PollerEvent) :
    pollerRun s (evs1 ++ evs2) = pollerRun (pollerRun s evs1) evs2 := by
  induction evs1 generalizing s with
  | nil => rfl
  | cons e es ih => simp [pollerRun, ih]

theorem pollerRun_cancelled (s : PollerState) (evs : List PollerEvent)
    (h : s.cancelled = true) :
    (pollerRun s evs).emitted = s.emitted ∧ (pollerRun s evs).cancelled = true := by
  induction evs generalizing s with
  | nil => exact ⟨rfl, h⟩
  | cons e es ih =>
    cases e with
    | tick =>
      have hstep : pollerStep s .tick = s := by simp [pollerStep, h]
      rw [pollerRun, hstep]
      exact ih s h
    | resolve i =>
      have hstep : pollerStep s (.resolve i) = { s with inFlight := s.inFlight.erase i } := by
        simp [pollerStep, h]
      rw [pollerRun, hstep]
      exact ih _ h
    | cancel =>
      have hstep : pollerStep s .cancel = { s with cancelled := true } := by
        simp [pollerStep]
      rw [pollerRun, hstep]
      exact ih _ rfl

/-- C7: once the cancel event of a `webSocketStream` subscription has
been processed, the emitted sequence never grows again: any continuation
of the run — ticks and late resolutions of calls that were in flight at
cancellation time included — leaves `emitted` exactly as it was at the
cancellation point. -/
theorem c7_no_emission_after_cancel (s : PollerState) (pre post : List PollerEvent) :
    (pollerRun s (pre ++ PollerEvent.cancel :: post)).emitted
      = (pollerRun s (pre ++ [PollerEvent.cancel])).emitted := by
  have h1 : pre ++ PollerEvent.cancel :: post = (pre ++ [PollerEvent.cancel]) ++ post := by
    simp
  rw [h1, pollerRun_append]
  have hc : (pollerRun s (pre ++ [PollerEvent.cancel])).cancelled = true := by
    rw [pollerRun_append]
    simp [pollerRun, pollerStep]
  exact (pollerRun_cancelled _ post hc).1

/-- Spec-side statement of C8's output shape, following the claim's
words: the streaming output has one slot per input target, positionally
aligned, and a suppressed target's slot is an empty result. -/
def specC8PositionalOk (options : QueryOptions) (ems : List StreamEmission) : Prop :=
  ems.length = options.targets.length ∧
  ∀ i : Fin options.targets.length, surviveB (options.targets.get i) = false →
    ∃ e, ems[i.val]? = some e ∧
      (e = StreamEmission.dataStreams [] ∨ e = StreamEmission.dataSeries [])

/-- The batch refuting C8's positional-slot part: first target has an
empty expression (suppressed), second survives. -/
def c8Opt : QueryOptions :=
  { targets :=
      [{ expr := "", format := "logs", hide := false },
       { expr := "q", format := "logs", hide := false }]
    range := { «from» := .absolute { millis := 0 }, «to» := .absolute { millis := 0 } }
    intervalMs := 1000 }

/-- Counterexample to C8: with one suppressed and one surviving target,
the suppressed target's slot in the delivered sequence is the raw
`EMPTY` Observable object emitted as a value — not an empty result —
so the claim's "its slot in the output is an empty result" fails at the
suppressed target's position. -/
theorem c8_counterexample :
    ¬ specC8PositionalOk c8Opt (requestStreamEmissions dsEx extEx c8Opt bNone) := by
  intro h
  have h2 := h.2 ⟨0, by decide⟩ (by decide)
  obtain ⟨e, he, hcase⟩ := h2
  have hval : (requestStreamEmissions dsEx extEx c8Opt bNone)[(0 : Nat)]?
      = some StreamEmission.emptyObservableValue := by decide
  rw [hval] at he
  obtain rfl := Option.some.inj he
  rcases hcase with hc | hc <;> exact StreamEmission.noConfusion hc

theorem map_const_emptyValue (l : List LokiQuery) :
    l.map (fun _ => StreamEmission.emptyObservableValue)
      = List.replicate l.length StreamEmission.emptyObservableValue := by
  induction l with
  | nil => rfl
  | cons a tl ih => simp [ih, List.replicate]

/-- C8 (amended): a target with an empty expression or marked hidden is
excluded from the survivor list, so it never produces a backend call on
any tick; it does contribute exactly one emission, but that emission is
the raw `EMPTY` Observable object delivered as a value (the array
argument of `merge` is not spread), and all such emissions come before
the surviving targets' results (one result per surviving target, in
surviving order) rather than sitting at the suppressed targets' input
positions — positional correspondence with the input target list is not
preserved. -/
theorem c8_amended_no_call_for_suppressed (ds : Datasource) (ext : Ext) (options : QueryOptions)
    (backend : QueryTarget → QueryResponse) :
    (∀ t ∈ options.targets, (t.expr = "" ∨ t.hide = true) →
      t ∉ options.targets.filter surviveB) ∧
    (queryTargetsOf ds ext options).length = (options.targets.filter surviveB).length ∧
    (∃ rest : List StreamEmission,
      requestStreamEmissions ds ext options backend
        = List.replicate
            (options.targets.filter (fun t => !jsTruthyStr t.expr || t.hide)).length
            StreamEmission.emptyObservableValue ++ rest ∧
      rest.length = (options.targets.filter surviveB).length ∧
      ∀ e ∈ rest, e ≠ StreamEmission.emptyObservableValue) := by
  refine ⟨?_, ?_, ?_⟩
  · intro t ht hsup hmem
    have hs := List.of_mem_filter hmem
    rcases hsup with h1 | h1
    · unfold surviveB jsTruthyStr at hs
      rw [h1] at hs
      exact Bool.noConfusion hs
    · unfold surviveB at hs
      rw [h1] at hs
      simp at hs
  · simp [queryTargetsOf]
  · refine ⟨(queryTargetsOf ds ext options).map
        (fun q =>
          let tagged := (respStreamsS (backend q)).map (fun s => { s with search := q.regexp })
          if (options.targets.headD defaultLokiQuery).format = "time_series" then
            StreamEmission.dataSeries
              (ext.makeSeriesForLogs (ext.mergeStreamsToLogs tagged ds.maxLines).rows
                options.intervalMs)
          else StreamEmission.dataStreams tagged), ?_, ?_, ?_⟩
    · simp only [requestStreamEmissions]
      rw [map_const_emptyValue]
    · simp [queryTargetsOf]
    · intro e he
      simp only [List.mem_map] at he
      obtain ⟨q, hq, rfl⟩ := he
      split <;> intro hC <;> exact StreamEmission.noConfusion hC

/-- Witness for the amended C8 at a concrete batch with one suppressed
and one surviving target. -/
theorem c8_amended_no_call_for_suppressed_witness :
    ({ expr := "", format := "logs", hide := false } : LokiQuery) ∈ c8Opt.targets ∧
    (({ expr := "", format := "logs", hide := false } : LokiQuery).expr = ""
      ∨ ({ expr := "", format := "logs", hide := false } : LokiQuery).hide = true) ∧
    ({ expr := "", format := "logs", hide := false } : LokiQuery)
      ∉ c8Opt.targets.filter surviveB ∧
    (∃ rest : List StreamEmission,
      requestStreamEmissions dsEx extEx c8Opt bNone
        = List.replicate
            (c8Opt.targets.filter (fun t => !jsTruthyStr t.expr || t.hide)).length
            StreamEmission.emptyObservableValue ++ rest ∧
      rest.length = (c8Opt.targets.filter surviveB).length ∧
      ∀ e ∈ rest, e ≠ StreamEmission.emptyObservableValue) := by
  have h := c8_amended_no_call_for_suppressed dsEx extEx c8Opt bNone
  exact ⟨by decide, Or.inl rfl, h.1 _ (by decide) (Or.inl rfl), h.2.2⟩

theorem loki_prefix_ne (s : String) : ("Loki: " ++ s) ≠ noLabelsMessage := by
  obtain ⟨ls⟩ := s
  intro h
  have h2 : ("Loki: " ++ String.mk ls).data.head? = noLabelsMessage.data.head? :=
    congrArg (fun t => t.data.head?) h
  have h3 : some 'L' = some 'D' := h2
  exact absurd h3 (by decide)

/-- C9: when the label request resolves but carries zero labels (missing
`data`, missing `values` or an empty list), `testDatasource` resolves —
both handlers return a structured result, nothing is thrown — with the
soft "connected, but no labels received" result, whose message differs
from every hard-failure message the catch handler can build (those all
start with "Loki: "). -/
theorem c9_no_labels_soft (res : LabelResponse)
    (h : (res.data.bind (fun d => d.values)).getD [] = []) :
    testDatasource (.ok res) = { status := "error", message := noLabelsMessage } ∧
    ∀ err : JsError, (testDatasource (.error err)).message ≠ noLabelsMessage := by
  constructor
  · cases hd : res.data with
    | none => simp [testDatasource, testDatasourceThen, hd]
    | some d =>
      cases hv : d.values with
      | none => simp [testDatasource, testDatasourceThen, hd, hv]
      | some vs =>
        have hvs : vs = [] := by simpa [hd, hv] using h
        subst hvs
        simp [testDatasource, testDatasourceThen, hd, hv]
  · intro err
    exact loki_prefix_ne (testDatasourceCatchDetail err)

/-- The zero-labels response of the C9 witness. -/
def c9Res : LabelResponse := { data := some { values := some [] } }

/-- Witness for C9 at a concrete zero-labels response and a concrete
connection error. -/
theorem c9_no_labels_soft_witness :
    (c9Res.data.bind (fun d => d.values)).getD [] = [] ∧
    testDatasource (.ok c9Res) = { status := "error", message := noLabelsMessage } ∧
    (testDatasource (.error { statusText := none, status := none, data := none })).message
      ≠ noLabelsMessage := by
  have h := c9_no_labels_soft c9Res (by decide)
  exact ⟨by decide, h.1, h.2 _⟩

/-- The settings refuting C10's positivity clause: a configured
`maxLines` of `"-5"`. -/
def c10Settings : InstanceSettings := { jsonData := some { maxLines := some "-5" } }

/-- Counterexample to C10: `parseInt('-5', 10) = -5` is a nonzero number,
so `-5 || 1000` keeps it, and the constructor's `maxLines` is negative —
not a positive number as the claim asserts. -/
theorem c10_counterexample :
    (datasourceOf c10Settings).maxLines = -5 ∧
    ¬ (0 < (datasourceOf c10Settings).maxLines) := by
  exact ⟨by decide, by decide⟩

/-- C10 (amended): the constructor's `maxLines` equals
`parseInt(jsonData.maxLines, 10)` whenever that yields a nonzero number
(possibly negative), and equals `DEFAULT_MAX_LINES = 1000` whenever
`jsonData` is absent or its `maxLines` is missing, non-numeric or parses
to 0 — so the limit used by every subsequent query is always a nonzero
(though not necessarily positive) number. -/
theorem c10_amended_max_lines (settings : InstanceSettings) :
    (∀ n : Int,
      (settings.jsonData.getD { maxLines := none }).maxLines.bind jsParseInt10 = some n →
      n ≠ 0 → (datasourceOf settings).maxLines = n) ∧
    (((settings.jsonData.getD { maxLines := none }).maxLines.bind jsParseInt10 = some 0 ∨
      (settings.jsonData.getD { maxLines := none }).maxLines.bind jsParseInt10 = none) →
      (datasourceOf settings).maxLines = DEFAULT_MAX_LINES) ∧
    (datasourceOf settings).maxLines ≠ 0 := by
  refine ⟨?_, ?_, ?_⟩
  · intro n hn hnz
    simp [datasourceOf, computeMaxLines, hn, hnz]
  · intro hcase
    rcases hcase with h0 | h0 <;> simp [datasourceOf, computeMaxLines, h0]
  · simp only [datasourceOf, computeMaxLines]
    cases hp : (settings.jsonData.getD { maxLines := none }).maxLines.bind jsParseInt10 with
    | none => simp [DEFAULT_MAX_LINES]
    | some n =>
      by_cases hz : n = 0
      · simp [hz, DEFAULT_MAX_LINES]
      · simp [hz]

/-- Witness for the amended C10 at the concrete negative configuration. -/
theorem c10_amended_max_lines_witness :
    (c10Settings.jsonData.getD { maxLines := none }).maxLines.bind jsParseInt10
      = some (-5) ∧
    (-5 : Int) ≠ 0 ∧
    (datasourceOf c10Settings).maxLines = -5 ∧
    (datasourceOf c10Settings).maxLines ≠ 0 := by
  have h := c10_amended_max_lines c10Settings
  exact ⟨by decide, by decide, h.1 (-5) (by decide) (by decide), h.2.2⟩

end Loki
